import Mathlib

/- Shallow embedding of the aspect and pattern engine of the moongate
   repository (src/astro_core.c, src/astro_aspects.c together with the
   type declarations in src/astro_types.h and src/astro_aspects.h).
   Machine doubles are modelled as rationals; C int return codes are
   modelled as Int; NULL pointer arguments are modelled with Option. -/

namespace Moongate

/- AstroPlanet is a C enum (values 0..22) stored in ints; the pattern
   scanner also stores the sentinel -1 in a variable of this type, so the
   embedding uses Int. -/
abbrev AstroPlanet := Int

def ASTRO_MAX_PLANETS : Nat := 23

/- Error codes from astro_types.h (AstroErrorCode). -/
def ASTRO_OK : Int := 0
def ASTRO_ERROR_CALCULATION : Int := -4
def ASTRO_ERROR_INVALID_PLANET : Int := -5
def ASTRO_ERROR_NULL_POINTER : Int := -7

/- The 11 aspect families of astro_types.h.  In C each enumerator carries
   its target angle as its numeric value; checkAspect casts the enum to
   double, which the function angle below models. -/
inductive AstroAspectType where
  | conjunction
  | opposition
  | trine
  | square
  | sextile
  | quincunx
  | semisextile
  | semisquare
  | sesquiquadrate
  | quintile
  | biquintile
deriving DecidableEq

def AstroAspectType.angle : AstroAspectType → ℚ
  | .conjunction => 0
  | .opposition => 180
  | .trine => 120
  | .square => 90
  | .sextile => 60
  | .quincunx => 150
  | .semisextile => 30
  | .semisquare => 45
  | .sesquiquadrate => 135
  | .quintile => 72
  | .biquintile => 144

structure AstroAspectConfig where
  aspect_type : AstroAspectType
  default_orb : ℚ
  tight_orb : ℚ
  is_major : Int
deriving DecidableEq

/- The static table g_aspect_configs of astro_aspects.c, in declaration
   order. -/
def g_aspect_configs : List AstroAspectConfig :=
  [⟨.conjunction, 8, 3, 1⟩,
   ⟨.opposition, 8, 3, 1⟩,
   ⟨.trine, 8, 3, 1⟩,
   ⟨.square, 8, 3, 1⟩,
   ⟨.sextile, 6, 2, 1⟩,
   ⟨.quincunx, 3, 1, 0⟩,
   ⟨.semisextile, 3, 1, 0⟩,
   ⟨.semisquare, 3, 1, 0⟩,
   ⟨.sesquiquadrate, 3, 1, 0⟩,
   ⟨.quintile, 2, 1/2, 0⟩,
   ⟨.biquintile, 2, 1/2, 0⟩]

/- get_aspect_config scans the table for the first entry with the given
   aspect type (returns none for the C NULL). -/
def get_aspect_config_scan (t : AstroAspectType) :
    List AstroAspectConfig → Option AstroAspectConfig
  | [] => none
  | c :: rest =>
    if c.aspect_type = t then some c else get_aspect_config_scan t rest

def get_aspect_config (configs : List AstroAspectConfig) (t : AstroAspectType) :
    Option AstroAspectConfig :=
  get_aspect_config_scan t configs

/- astro_aspects_set_orb mutates the default_orb of the first entry with
   the given type; modelled as a list transformation on the table state. -/
def set_orb_scan (t : AstroAspectType) (orb : ℚ) :
    List AstroAspectConfig → List AstroAspectConfig
  | [] => []
  | c :: rest =>
    if c.aspect_type = t then { c with default_orb := orb } :: rest
    else c :: set_orb_scan t orb rest

def astro_aspects_set_orb (configs : List AstroAspectConfig)
    (t : AstroAspectType) (orb : ℚ) : List AstroAspectConfig :=
  set_orb_scan t orb configs

/- C fabs on the rational model of doubles. -/
def fabs (x : ℚ) : ℚ :=
  if x < 0 then -x else x

/- astro_core_angular_distance from astro_core.c. -/
def astro_core_angular_distance (lon1 lon2 : ℚ) : ℚ :=
  let diff := fabs (lon2 - lon1)
  if diff > 180 then 360 - diff else diff

/- The condition under which one table entry accepts a given angular
   distance (the body of the scan loop in astro_aspects_check_aspect). -/
abbrev aspect_matches (dist : ℚ) (c : AstroAspectConfig) : Prop :=
  fabs (dist - c.aspect_type.angle) ≤ c.default_orb

/- The scan loop of astro_aspects_check_aspect: first table entry whose
   default orb contains the angular distance wins. -/
def check_aspect_scan (dist : ℚ) :
    List AstroAspectConfig → Option (AstroAspectType × ℚ)
  | [] => none
  | c :: rest =>
    let diff := fabs (dist - c.aspect_type.angle)
    if diff ≤ c.default_orb then some (c.aspect_type, diff)
    else check_aspect_scan dist rest

def astro_aspects_check_aspect (configs : List AstroAspectConfig)
    (lon1 lon2 : ℚ) : Option (AstroAspectType × ℚ) :=
  check_aspect_scan (astro_core_angular_distance lon1 lon2) configs

/- AstroPlanetPosition from astro_types.h, restricted to the fields the
   aspect engine reads (planet, longitude, longitude_speed, sign, name);
   the remaining ephemeris fields (latitude, distance, the other speeds,
   sign_position, house, is_retrograde) are never read by this module. -/
structure AstroPlanetPosition where
  planet : AstroPlanet
  longitude : ℚ
  longitude_speed : ℚ
  sign : Int
  name : String
deriving DecidableEq

structure AstroAspect where
  planet1 : AstroPlanet
  planet2 : AstroPlanet
  aspect_type : AstroAspectType
  orb : ℚ
  difference : ℚ
  is_applying : Int
  is_exact : Int
  name : String
deriving DecidableEq

def astro_aspects_get_name : AstroAspectType → String
  | .conjunction => "conjunction"
  | .opposition => "opposition"
  | .trine => "trine"
  | .square => "square"
  | .sextile => "sextile"
  | .quincunx => "quincunx"
  | .semisextile => "semi-sextile"
  | .semisquare => "semi-square"
  | .sesquiquadrate => "sesquiquadrate"
  | .quintile => "quintile"
  | .biquintile => "biquintile"

/- astro_aspects_is_applying: returns 1 (applying), 0 (separating) or -1
   (stationary, also used for the NULL argument case).  Only the
   aspect_type field of the aspect argument is read. -/
def astro_aspects_is_applying (pos1 pos2 : Option AstroPlanetPosition)
    (aspect : Option AstroAspect) : Int :=
  match pos1, pos2, aspect with
  | some p1, some p2, some a =>
    let speed_diff := p1.longitude_speed - p2.longitude_speed
    if fabs speed_diff < 1/100 then -1
    else
      let target_angle := a.aspect_type.angle
      let current_angle := astro_core_angular_distance p1.longitude p2.longitude
      if speed_diff > 0 then
        if current_angle < target_angle then 1 else 0
      else
        if current_angle > target_angle then 1 else 0
  | _, _, _ => -1

/- The is_exact computation of calcAspect: C reads config->tight_orb
   without a NULL check; the none branch is unreachable because the
   matched type always comes from the scan over the same table. -/
def calc_is_exact (configs : List AstroAspectConfig) (t : AstroAspectType)
    (orb : ℚ) : Int :=
  match get_aspect_config configs t with
  | some config => if orb ≤ config.tight_orb then 1 else 0
  | none => 0

/- astro_aspects_calc_aspect.  The C function returns an int code and
   writes the detected aspect through an out pointer; the pair models
   (return code, written aspect).  The out pointer itself being NULL is
   not modelled separately.  In the C source is_applying is computed on
   the partially initialised aspect record (only the fields it reads -
   aspect_type and none other - are set at that point); the record base
   below holds placeholder values for the not yet written fields. -/
def astro_aspects_calc_aspect (configs : List AstroAspectConfig)
    (pos1 pos2 : Option AstroPlanetPosition) : Int × Option AstroAspect :=
  match pos1, pos2 with
  | none, _ => (ASTRO_ERROR_NULL_POINTER, none)
  | _, none => (ASTRO_ERROR_NULL_POINTER, none)
  | some p1, some p2 =>
    if p1.planet = p2.planet then
      (ASTRO_ERROR_INVALID_PLANET, none)
    else
      match astro_aspects_check_aspect configs p1.longitude p2.longitude with
      | some (t, orb) =>
        let base : AstroAspect :=
          { planet1 := p1.planet
            planet2 := p2.planet
            aspect_type := t
            orb := astro_core_angular_distance p1.longitude p2.longitude
            difference := orb
            is_applying := 0
            is_exact := 0
            name := "" }
        let applying := astro_aspects_is_applying (some p1) (some p2) (some base)
        let exact : Int := calc_is_exact configs t orb
        (ASTRO_OK, some { base with
            is_applying := applying
            is_exact := exact
            name := p1.name ++ " " ++ astro_aspects_get_name t ++ " " ++ p2.name })
      | none => (ASTRO_ERROR_CALCULATION, none)

/- Inner loop of astro_aspects_calc_all: one fixed first body p paired
   against each later body, appending each successful detection while the
   running count stays below the capacity.  The same loop shape serves the
   inner loop of astro_aspects_calc_between_charts. -/
def calc_all_row (configs : List AstroAspectConfig) (p : AstroPlanetPosition) :
    List AstroPlanetPosition → Nat → Nat → List AstroAspect
  | [], _, _ => []
  | q :: rest, count, max_aspects =>
    if count < max_aspects then
      match (astro_aspects_calc_aspect configs (some p) (some q)).2 with
      | some a => a :: calc_all_row configs p rest (count + 1) max_aspects
      | none => calc_all_row configs p rest count max_aspects
    else []

def calc_all_loop (configs : List AstroAspectConfig) :
    List AstroPlanetPosition → Nat → Nat → List AstroAspect
  | [], _, _ => []
  | p :: rest, count, max_aspects =>
    if count < max_aspects then
      let row := calc_all_row configs p rest count max_aspects
      row ++ calc_all_loop configs rest (count + row.length) max_aspects
    else []

def astro_aspects_calc_all (configs : List AstroAspectConfig)
    (positions : List AstroPlanetPosition) (max_aspects : Nat) :
    Int × List AstroAspect :=
  (ASTRO_OK, calc_all_loop configs positions 0 max_aspects)

/- astro_aspects_calc_between_charts: outer loop over the transit list,
   inner loop over the natal list. -/
def calc_between_loop (configs : List AstroAspectConfig)
    (natal : List AstroPlanetPosition) :
    List AstroPlanetPosition → Nat → Nat → List AstroAspect
  | [], _, _ => []
  | t :: rest, count, max_aspects =>
    if count < max_aspects then
      let row := calc_all_row configs t natal count max_aspects
      row ++ calc_between_loop configs natal rest (count + row.length) max_aspects
    else []

def astro_aspects_calc_between_charts (configs : List AstroAspectConfig)
    (natal transit : List AstroPlanetPosition) (max_aspects : Nat) :
    Int × List AstroAspect :=
  (ASTRO_OK, calc_between_loop configs natal transit 0 max_aspects)

/- Pattern types from astro_aspects.h (only the first two and stellium
   are ever produced by astro_aspects_find_patterns). -/
inductive AstroPatternType where
  | grand_trine
  | t_square
  | grand_cross
  | yod
  | kite
  | stellium
  | mystic_rectangle
deriving DecidableEq

/- AstroPattern from astro_aspects.h.  The C struct holds a fixed array
   AstroPlanet planets[6]; the field planets below is the sequence of
   entries the scanner actually writes, so that writes past slot 6 (which
   the stellium scan can perform) stay observable.  num_planets is stored
   exactly as the C code sets it.  The element field is never written by
   astro_aspects_find_patterns and is omitted. -/
structure AstroPattern where
  pattern_type : AstroPatternType
  planets : List AstroPlanet
  num_planets : Nat
  description : String
deriving DecidableEq

/- sign_names and astro_core_get_sign_name from astro_core.c. -/
def sign_names : List String :=
  ["Aries", "Taurus", "Gemini", "Cancer", "Leo", "Virgo",
   "Libra", "Scorpio", "Sagittarius", "Capricorn", "Aquarius", "Pisces"]

def astro_core_get_sign_name (sign : Int) : String :=
  if 0 ≤ sign ∧ sign < 12 then sign_names.getD sign.toNat "Unknown"
  else "Unknown"

def default_position : AstroPlanetPosition := ⟨0, 0, 0, 0, ""⟩

/- The description strings index the positions array directly by planet
   identifier (positions[p].name in C, without a bounds check). -/
def position_name (positions : List AstroPlanetPosition) (p : AstroPlanet) :
    String :=
  (positions.getD p.toNat default_position).name

/- Grand trine scan.  For a pair of trine aspects ai (the outer aspect,
   bodies p1 p2) and aj, the candidate third body; -1 when aj shares no
   body with ai. -/
def gt_third_planet (ai aj : AstroAspect) : AstroPlanet :=
  let p1 := ai.planet1
  let p2 := ai.planet2
  let p3a := aj.planet1
  let p3b := aj.planet2
  if p3a = p1 ∨ p3a = p2 then p3b
  else if p3b = p1 ∨ p3b = p2 then p3a
  else -1

/- The innermost k loop (scans until the first hit, then breaks): does
   any trine aspect connect third to p1 or to p2?  Note that the loop
   accepts an edge to either end, so the aspect aj itself, which connects
   the shared body to third, always qualifies. -/
def gt_has_third_side (p1 p2 third : AstroPlanet) :
    List AstroAspect → Bool
  | [] => false
  | ak :: rest =>
    if ak.aspect_type = AstroAspectType.trine ∧
        ((ak.planet1 = p1 ∧ ak.planet2 = third) ∨
         (ak.planet2 = p1 ∧ ak.planet1 = third) ∨
         (ak.planet1 = p2 ∧ ak.planet2 = third) ∨
         (ak.planet2 = p2 ∧ ak.planet1 = third)) then true
    else gt_has_third_side p1 p2 third rest

def mk_grand_trine (positions : List AstroPlanetPosition)
    (p1 p2 third : AstroPlanet) : AstroPattern :=
  { pattern_type := .grand_trine
    planets := [p1, p2, third]
    num_planets := 3
    description := "Grand Trine: " ++ position_name positions p1 ++ ", " ++
      position_name positions p2 ++ ", " ++ position_name positions third }

/- The j loop of the grand trine scan: runs over the aspects after ai and
   does not re-check the pattern capacity. -/
def gt_inner (positions : List AstroPlanetPosition)
    (aspects : List AstroAspect) (ai : AstroAspect) :
    List AstroAspect → List AstroPattern
  | [] => []
  | aj :: rest =>
    (if aj.aspect_type = AstroAspectType.trine then
       let third := gt_third_planet ai aj
       if 0 ≤ third then
         if gt_has_third_side ai.planet1 ai.planet2 third aspects then
           [mk_grand_trine positions ai.planet1 ai.planet2 third]
         else []
       else []
     else []) ++ gt_inner positions aspects ai rest

/- The i loop of the grand trine scan: checks count < max_patterns before
   each outer iteration. -/
def gt_outer (positions : List AstroPlanetPosition)
    (aspects : List AstroAspect) (max_patterns : Nat) :
    List AstroAspect → Nat → List AstroPattern
  | [], _ => []
  | ai :: rest, count =>
    if count < max_patterns then
      let found :=
        if ai.aspect_type = AstroAspectType.trine then
          gt_inner positions aspects ai rest
        else []
      found ++ gt_outer positions aspects max_patterns rest (count + found.length)
    else []

/- The k loop of the T-square scan (first hit wins): does any square
   aspect connect c to p1 or to p2?  As above, the square aspect aj
   itself qualifies. -/
def ts_second_square (p1 p2 c : AstroPlanet) :
    List AstroAspect → Bool
  | [] => false
  | ak :: rest =>
    if ak.aspect_type = AstroAspectType.square ∧
        ((ak.planet1 = c ∧ (ak.planet2 = p1 ∨ ak.planet2 = p2)) ∨
         (ak.planet2 = c ∧ (ak.planet1 = p1 ∨ ak.planet1 = p2))) then true
    else ts_second_square p1 p2 c rest

def mk_t_square (positions : List AstroPlanetPosition)
    (p1 p2 apex : AstroPlanet) : AstroPattern :=
  { pattern_type := .t_square
    planets := [p1, p2, apex]
    num_planets := 3
    description := "T-Square: " ++ position_name positions p1 ++ " opp " ++
      position_name positions p2 ++ ", both square " ++
      position_name positions apex }

/- The j loop of the T-square scan: runs over the whole aspect list and
   does not re-check the pattern capacity. -/
def ts_inner (positions : List AstroPlanetPosition)
    (aspects : List AstroAspect) (p1 p2 : AstroPlanet) :
    List AstroAspect → List AstroPattern
  | [] => []
  | aj :: rest =>
    (if aj.aspect_type = AstroAspectType.square then
       let sq1 := aj.planet1
       let sq2 := aj.planet2
       if (sq1 = p1 ∨ sq1 = p2) ∧ sq2 ≠ p1 ∧ sq2 ≠ p2 then
         if ts_second_square p1 p2 sq2 aspects then
           [mk_t_square positions p1 p2 sq2]
         else []
       else []
     else []) ++ ts_inner positions aspects p1 p2 rest

def ts_outer (positions : List AstroPlanetPosition)
    (aspects : List AstroAspect) (max_patterns : Nat) :
    List AstroAspect → Nat → List AstroPattern
  | [], _ => []
  | ai :: rest, count =>
    if count < max_patterns then
      let found :=
        if ai.aspect_type = AstroAspectType.opposition then
          ts_inner positions aspects ai.planet1 ai.planet2 aspects
        else []
      found ++ ts_outer positions aspects max_patterns rest (count + found.length)
    else []

/- Stellium scan.  The collection loop checks the ASTRO_MAX_PLANETS cap
   before each body it looks at. -/
def stellium_collect (sign : Int) :
    List AstroPlanetPosition → Nat → List AstroPlanetPosition
  | [], _ => []
  | p :: rest, n =>
    if n < ASTRO_MAX_PLANETS then
      if p.sign = sign then p :: stellium_collect sign rest (n + 1)
      else stellium_collect sign rest n
    else []

def stellium_members (positions : List AstroPlanetPosition) (sign : Int) :
    List AstroPlanetPosition :=
  stellium_collect sign positions 0

def mk_stellium (sign : Int) (members : List AstroPlanetPosition) :
    AstroPattern :=
  { pattern_type := .stellium
    planets := members.map (·.planet)
    num_planets := members.length
    description := "Stellium in " ++ astro_core_get_sign_name sign ++
      " (" ++ toString members.length ++ " planets)" }

def stellium_scan (positions : List AstroPlanetPosition) (max_patterns : Nat) :
    List Int → Nat → List AstroPattern
  | [], _ => []
  | sign :: restSigns, count =>
    if count < max_patterns then
      let members := stellium_members positions sign
      if 3 ≤ members.length then
        mk_stellium sign members ::
          stellium_scan positions max_patterns restSigns (count + 1)
      else stellium_scan positions max_patterns restSigns count
    else []

def zodiac_signs : List Int := [0, 1, 2, 3, 4, 5, 6, 7, 8, 9, 10, 11]

/- astro_aspects_find_patterns: the three scans run in order, sharing the
   single running count against max_patterns.  NULL argument checks are
   not modelled (list arguments are always present). -/
def astro_aspects_find_patterns (positions : List AstroPlanetPosition)
    (aspects : List AstroAspect) (max_patterns : Nat) :
    Int × List AstroPattern :=
  let gts := gt_outer positions aspects max_patterns aspects 0
  let tss := ts_outer positions aspects max_patterns aspects gts.length
  let sts := stellium_scan positions max_patterns zodiac_signs
    (gts.length + tss.length)
  (ASTRO_OK, gts ++ tss ++ sts)

/- ------------------------------------------------------------------
   Concrete inputs used by the claim theorems and witnesses.
   ------------------------------------------------------------------ -/

/- The registration order of the 11 families in g_aspect_configs. -/
def aspect_scan_order : List AstroAspectType :=
  [.conjunction, .opposition, .trine, .square, .sextile, .quincunx,
   .semisextile, .semisquare, .sesquiquadrate, .quintile, .biquintile]

/- Three bodies 0, 1, 2 at longitudes 0, 120, 240 with the given
   longitudinal speeds (signs 0, 4, 8 as derived from the longitudes). -/
def trio_positions_s (s0 s1 s2 : ℚ) : List AstroPlanetPosition :=
  [⟨0, 0, s0, 0, "P0"⟩, ⟨1, 120, s1, 4, "P1"⟩, ⟨2, 240, s2, 8, "P2"⟩]

def trio_positions : List AstroPlanetPosition := trio_positions_s 0 0 0

/- Two trine aspects sharing body 1; no trine connects 0 and 2. -/
def two_trines : List AstroAspect :=
  [⟨0, 1, .trine, 120, 0, -1, 1, ""⟩,
   ⟨1, 2, .trine, 120, 0, -1, 1, ""⟩]

/- An opposition 0-1 and a single square 0-2; body 2 is square to only
   one end of the opposition. -/
def opp_one_square : List AstroAspect :=
  [⟨0, 1, .opposition, 180, 0, -1, 1, ""⟩,
   ⟨0, 2, .square, 90, 0, -1, 1, ""⟩]

/- All three edges of the trine triangle over bodies 0, 1, 2. -/
def trine_triangle : List AstroAspect :=
  [⟨0, 1, .trine, 120, 0, -1, 1, ""⟩,
   ⟨0, 2, .trine, 120, 0, -1, 1, ""⟩,
   ⟨1, 2, .trine, 120, 0, -1, 1, ""⟩]

/- The three aspect records calcAllAspects computes for trio_positions
   (stationary bodies: every speed difference is 0, below the
   applying/separating threshold, so is_applying is -1). -/
def trio_aspects : List AstroAspect :=
  [⟨0, 1, .trine, 120, 0, -1, 1, "P0 trine P1"⟩,
   ⟨0, 2, .trine, 120, 0, -1, 1, "P0 trine P2"⟩,
   ⟨1, 2, .trine, 120, 0, -1, 1, "P1 trine P2"⟩]

/- Seven bodies all in sign 0. -/
def seven_in_aries : List AstroPlanetPosition :=
  [⟨0, 0, 0, 0, "A"⟩, ⟨1, 1, 0, 0, "B"⟩, ⟨2, 2, 0, 0, "C"⟩,
   ⟨3, 3, 0, 0, "D"⟩, ⟨4, 4, 0, 0, "E"⟩, ⟨5, 5, 0, 0, "F"⟩,
   ⟨6, 6, 0, 0, "G"⟩]

/- Witness bodies at longitudes 0 and 122 (trine, difference 2) and the
   aspect record calcAspect writes for them. -/
def w_pos1 : AstroPlanetPosition := ⟨0, 0, 0, 0, "P0"⟩
def w_pos2 : AstroPlanetPosition := ⟨1, 122, 0, 4, "P1"⟩
def w_aspect : AstroAspect := ⟨0, 1, .trine, 122, 2, -1, 1, "P0 trine P1"⟩

/- Two records carrying the same body identifier. -/
def w_same1 : AstroPlanetPosition := ⟨3, 15, 1, 0, "X"⟩
def w_same2 : AstroPlanetPosition := ⟨3, 200, 0, 6, "Y"⟩

/- A fast and a slow body for the applying/separating witness. -/
def w_fast : AstroPlanetPosition := ⟨0, 0, 1, 0, "F"⟩
def w_slow : AstroPlanetPosition := ⟨1, 122, 0, 4, "S"⟩

/- ------------------------------------------------------------------
   Helper lemmas.
   ------------------------------------------------------------------ -/

theorem fabs_eq_abs (x : ℚ) : fabs x = |x| := by
  unfold fabs
  split_ifs with h
  · rw [abs_of_neg h]
  · rw [abs_of_nonneg (not_lt.mp h)]

theorem fabs_nonneg (x : ℚ) : 0 ≤ fabs x := by
  rw [fabs_eq_abs]
  exact abs_nonneg x

theorem check_scan_none_iff (dist : ℚ) :
    ∀ cs : List AstroAspectConfig,
      check_aspect_scan dist cs = none ↔ ∀ c ∈ cs, ¬ aspect_matches dist c := by
  intro cs
  induction cs with
  | nil => simp [check_aspect_scan]
  | cons hd tl ih =>
    by_cases hm : aspect_matches dist hd
    · simp [check_aspect_scan, hm]
    · simp only [check_aspect_scan]
      rw [if_neg hm, ih]
      constructor
      · intro h c hc
        rcases List.mem_cons.mp hc with h1 | h1
        · rw [h1]
          exact hm
        · exact h c h1
      · intro h c hc
        exact h c (List.mem_cons_of_mem _ hc)

theorem check_scan_some_iff (dist : ℚ) (t : AstroAspectType) (o : ℚ) :
    ∀ cs : List AstroAspectConfig,
      check_aspect_scan dist cs = some (t, o) ↔
        ∃ pre c post, cs = pre ++ c :: post ∧ aspect_matches dist c ∧
          (∀ d ∈ pre, ¬ aspect_matches dist d) ∧
          t = c.aspect_type ∧ o = fabs (dist - c.aspect_type.angle) := by
  intro cs
  induction cs with
  | nil =>
    constructor
    · intro h
      simp [check_aspect_scan] at h
    · rintro ⟨pre, c, post, hcs, -, -, -, -⟩
      exact absurd hcs.symm (by simp)
  | cons hd tl ih =>
    by_cases hm : aspect_matches dist hd
    · constructor
      · intro h
        simp only [check_aspect_scan] at h
        rw [if_pos hm] at h
        obtain ⟨ht, ho⟩ : hd.aspect_type = t ∧ fabs (dist - hd.aspect_type.angle) = o := by
          simpa using h
        exact ⟨[], hd, tl, rfl, hm, by simp, ht.symm, ho.symm⟩
      · rintro ⟨pre, c, post, hcs, hc, hpre, ht, ho⟩
        cases pre with
        | nil =>
          simp only [List.nil_append] at hcs
          obtain ⟨h1, h2⟩ := List.cons.inj hcs
          simp only [check_aspect_scan]
          rw [if_pos hm, ht, ho, h1]
        | cons d pre2 =>
          obtain ⟨h1, h2⟩ := List.cons.inj hcs
          rw [h1] at hm
          exact absurd hm (hpre d (by simp))
    · have hstep : check_aspect_scan dist (hd :: tl) = check_aspect_scan dist tl := by
        simp only [check_aspect_scan]
        rw [if_neg hm]
      rw [hstep, ih]
      constructor
      · rintro ⟨pre, c, post, hcs, hc, hpre, ht, ho⟩
        refine ⟨hd :: pre, c, post, by rw [hcs]; rfl, hc, ?_, ht, ho⟩
        intro d hd2
        rcases List.mem_cons.mp hd2 with h | h
        · rw [h]; exact hm
        · exact hpre d h
      · rintro ⟨pre, c, post, hcs, hc, hpre, ht, ho⟩
        cases pre with
        | nil =>
          simp only [List.nil_append] at hcs
          obtain ⟨h1, h2⟩ := List.cons.inj hcs
          rw [← h1] at hc
          exact absurd hc hm
        | cons d pre2 =>
          obtain ⟨h1, h2⟩ := List.cons.inj hcs
          exact ⟨pre2, c, post, h2, hc, fun e he => hpre e (by simp [he]), ht, ho⟩

theorem get_aspect_config_of_mem :
    ∀ (configs : List AstroAspectConfig) (c : AstroAspectConfig),
      c ∈ configs → ((configs.map fun d => d.aspect_type).Nodup) →
      get_aspect_config configs c.aspect_type = some c := by
  intro configs
  induction configs with
  | nil =>
    intro c hc _
    cases hc
  | cons hd tl ih =>
    intro c hc hnd
    rw [List.map_cons, List.nodup_cons] at hnd
    rcases List.mem_cons.mp hc with h | h
    · rw [h]
      simp [get_aspect_config, get_aspect_config_scan]
    · have hne : hd.aspect_type ≠ c.aspect_type := by
        intro he
        exact hnd.1 (he ▸ List.mem_map_of_mem (fun d => d.aspect_type) h)
      simp only [get_aspect_config, get_aspect_config_scan]
      rw [if_neg hne]
      exact ih c h hnd.2

theorem calc_all_row_length_le (configs : List AstroAspectConfig)
    (p : AstroPlanetPosition) :
    ∀ (qs : List AstroPlanetPosition) (count max_aspects : Nat),
      (calc_all_row configs p qs count max_aspects).length ≤
        max_aspects - count := by
  intro qs
  induction qs with
  | nil =>
    intro count m
    simp [calc_all_row]
  | cons q rest ih =>
    intro count m
    by_cases h : count < m
    · simp only [calc_all_row, if_pos h]
      rcases hopt : (astro_aspects_calc_aspect configs (some p) (some q)).2 with - | a
      · show (calc_all_row configs p rest count m).length ≤ m - count
        exact ih count m
      · show (a :: calc_all_row configs p rest (count + 1) m).length ≤ m - count
        have := ih (count + 1) m
        simp only [List.length_cons]
        omega
    · simp [calc_all_row, if_neg h]

theorem calc_all_loop_length_le (configs : List AstroAspectConfig) :
    ∀ (ps : List AstroPlanetPosition) (count max_aspects : Nat),
      (calc_all_loop configs ps count max_aspects).length ≤
        max_aspects - count := by
  intro ps
  induction ps with
  | nil =>
    intro count m
    simp [calc_all_loop]
  | cons p rest ih =>
    intro count m
    by_cases h : count < m
    · simp only [calc_all_loop, if_pos h, List.length_append]
      have h1 := calc_all_row_length_le configs p rest count m
      have h2 := ih (count + (calc_all_row configs p rest count m).length) m
      omega
    · simp [calc_all_loop, if_neg h]

/- calcAllAspects never writes more aspects than its capacity. -/
theorem calc_all_length_le (configs : List AstroAspectConfig)
    (positions : List AstroPlanetPosition) (max_aspects : Nat) :
    (astro_aspects_calc_all configs positions max_aspects).2.length ≤
      max_aspects := by
  have := calc_all_loop_length_le configs positions 0 max_aspects
  simpa [astro_aspects_calc_all] using this

theorem calc_between_loop_length_le (configs : List AstroAspectConfig)
    (natal : List AstroPlanetPosition) :
    ∀ (ts : List AstroPlanetPosition) (count max_aspects : Nat),
      (calc_between_loop configs natal ts count max_aspects).length ≤
        max_aspects - count := by
  intro ts
  induction ts with
  | nil =>
    intro count m
    simp [calc_between_loop]
  | cons t rest ih =>
    intro count m
    by_cases h : count < m
    · simp only [calc_between_loop, if_pos h, List.length_append]
      have h1 := calc_all_row_length_le configs t natal count m
      have h2 := ih (count + (calc_all_row configs t natal count m).length) m
      omega
    · simp [calc_between_loop, if_neg h]

/- calcCrossAspects never writes more aspects than its capacity. -/
theorem calc_between_length_le (configs : List AstroAspectConfig)
    (natal transit : List AstroPlanetPosition) (max_aspects : Nat) :
    (astro_aspects_calc_between_charts configs natal transit
        max_aspects).2.length ≤ max_aspects := by
  have := calc_between_loop_length_le configs natal transit 0 max_aspects
  simpa [astro_aspects_calc_between_charts] using this

/- ------------------------------------------------------------------
   Claim theorems.
   ------------------------------------------------------------------ -/

/-- Claim C10: angularDistance is symmetric, and on ecliptic longitudes
(the [0,360) range the spec gives for longitude values) its result lies
in the interval [0,180]. -/
theorem angular_distance_symm_bound (a b : ℚ)
    (ha0 : 0 ≤ a) (ha : a < 360) (hb0 : 0 ≤ b) (hb : b < 360) :
    astro_core_angular_distance a b = astro_core_angular_distance b a ∧
    0 ≤ astro_core_angular_distance a b ∧
    astro_core_angular_distance a b ≤ 180 := by
  have habs : fabs (b - a) = fabs (a - b) := by
    rw [fabs_eq_abs, fabs_eq_abs, abs_sub_comm]
  have h0 : 0 ≤ fabs (b - a) := fabs_nonneg _
  have h1 : fabs (b - a) < 360 := by
    rw [fabs_eq_abs, abs_lt]
    constructor <;> linarith
  refine ⟨?_, ?_, ?_⟩
  · simp only [astro_core_angular_distance]
    rw [habs]
  · simp only [astro_core_angular_distance]
    split_ifs with h
    · linarith
    · exact h0
  · simp only [astro_core_angular_distance]
    split_ifs with h
    · linarith
    · linarith [not_lt.mp h]

/-- Witness for C10 at the longitudes 10 and 350. -/
theorem angular_distance_symm_bound_check :
    astro_core_angular_distance 10 350 = astro_core_angular_distance 350 10 ∧
    0 ≤ astro_core_angular_distance 10 350 ∧
    astro_core_angular_distance 10 350 ≤ 180 :=
  angular_distance_symm_bound 10 350 (by norm_num) (by norm_num)
    (by norm_num) (by norm_num)

/-- Claim C6: checkAspect scans the table in the fixed registration order
Conjunction, Opposition, Trine, Square, Sextile, Quincunx, Semisextile,
Semisquare, Sesquiquadrate, Quintile, Biquintile, and returns exactly the
first entry whose default orb contains the computed angular distance
(first match wins, families after the first match are never considered),
and returns no match exactly when no family qualifies. -/
theorem check_aspect_first_match (configs : List AstroAspectConfig)
    (lon1 lon2 : ℚ) :
    g_aspect_configs.map (fun c => c.aspect_type) = aspect_scan_order ∧
    (∀ t o, astro_aspects_check_aspect configs lon1 lon2 = some (t, o) ↔
      ∃ pre c post, configs = pre ++ c :: post ∧
        aspect_matches (astro_core_angular_distance lon1 lon2) c ∧
        (∀ d ∈ pre, ¬ aspect_matches (astro_core_angular_distance lon1 lon2) d) ∧
        t = c.aspect_type ∧
        o = fabs (astro_core_angular_distance lon1 lon2 - c.aspect_type.angle)) ∧
    (astro_aspects_check_aspect configs lon1 lon2 = none ↔
      ∀ c ∈ configs, ¬ aspect_matches (astro_core_angular_distance lon1 lon2) c) := by
  refine ⟨rfl, ?_, ?_⟩
  · intro t o
    exact check_scan_some_iff (astro_core_angular_distance lon1 lon2) t o configs
  · exact check_scan_none_iff (astro_core_angular_distance lon1 lon2) configs

/-- Claim C8: calcAspect rejects two records carrying the same body
identifier with the invalid-argument code, regardless of the longitudes,
and that code differs both from the NULL pointer code and from the
no-aspect-found code, so the three outcomes are distinguishable. -/
theorem calc_aspect_rejects_self (configs : List AstroAspectConfig)
    (p1 p2 : AstroPlanetPosition) (h : p1.planet = p2.planet) :
    (astro_aspects_calc_aspect configs (some p1) (some p2)).1 =
      ASTRO_ERROR_INVALID_PLANET ∧
    ASTRO_ERROR_INVALID_PLANET ≠ ASTRO_ERROR_NULL_POINTER ∧
    ASTRO_ERROR_INVALID_PLANET ≠ ASTRO_ERROR_CALCULATION := by
  refine ⟨?_, by decide, by decide⟩
  simp [astro_aspects_calc_aspect, h]

/-- Witness for C8: two records with body identifier 3 at longitudes 15
and 200. -/
theorem calc_aspect_rejects_self_check :
    (astro_aspects_calc_aspect g_aspect_configs (some w_same1)
        (some w_same2)).1 = ASTRO_ERROR_INVALID_PLANET ∧
    ASTRO_ERROR_INVALID_PLANET ≠ ASTRO_ERROR_NULL_POINTER ∧
    ASTRO_ERROR_INVALID_PLANET ≠ ASTRO_ERROR_CALCULATION :=
  calc_aspect_rejects_self g_aspect_configs w_same1 w_same2 (by decide)

/-- Claim C7: every aspect record written by calcAspect has its
difference field at most the default orb of the matched family, has
is_exact set exactly when the difference is at most the tight orb of that
family, and carries the raw angular distance of the two longitudes in its
orb field.  The Nodup hypothesis states that the configuration table
holds one entry per family, the shape the mutable table always has. -/
theorem calc_aspect_orb_exactness (configs : List AstroAspectConfig)
    (p1 p2 : AstroPlanetPosition) (a : AstroAspect)
    (hnd : (configs.map fun c => c.aspect_type).Nodup)
    (h : (astro_aspects_calc_aspect configs (some p1) (some p2)).2 = some a) :
    ∃ c, get_aspect_config configs a.aspect_type = some c ∧
      a.difference ≤ c.default_orb ∧
      (a.is_exact = 1 ↔ a.difference ≤ c.tight_orb) ∧
      a.orb = astro_core_angular_distance p1.longitude p2.longitude := by
  by_cases hp : p1.planet = p2.planet
  · simp [astro_aspects_calc_aspect, hp] at h
  · rcases hck : astro_aspects_check_aspect configs p1.longitude p2.longitude
      with - | ⟨t, o⟩
    · simp [astro_aspects_calc_aspect, hp, hck] at h
    · obtain ⟨pre, c, post, hcfg, hmatch, hpre, ht, ho⟩ :=
        (check_scan_some_iff
          (astro_core_angular_distance p1.longitude p2.longitude) t o configs).mp
          hck
      have hcmem : c ∈ configs := by
        rw [hcfg]
        exact List.mem_append_right _ (List.mem_cons_self _ _)
      have hfind : get_aspect_config configs c.aspect_type = some c :=
        get_aspect_config_of_mem configs c hcmem hnd
      have hfind2 : get_aspect_config configs t = some c := by
        rw [ht]
        exact hfind
      simp only [astro_aspects_calc_aspect, if_neg hp, hck,
        Option.some.injEq] at h
      subst h
      refine ⟨c, ?_, ?_, ?_, ?_⟩
      · show get_aspect_config configs t = some c
        exact hfind2
      · show o ≤ c.default_orb
        rw [ho]
        exact hmatch
      · show calc_is_exact configs t o = 1 ↔ o ≤ c.tight_orb
        unfold calc_is_exact
        rw [hfind2]
        show (if o ≤ c.tight_orb then (1 : Int) else 0) = 1 ↔ o ≤ c.tight_orb
        split_ifs with hto
        · exact iff_of_true rfl hto
        · exact iff_of_false (by decide) hto
      · show astro_core_angular_distance p1.longitude p2.longitude = _
        rfl

/-- Witness for C7: bodies at longitudes 0 and 122 produce a trine
record with difference 2, marked exact, carrying the raw distance 122 in
its orb field. -/
theorem calc_aspect_orb_exactness_check :
    ∃ c, get_aspect_config g_aspect_configs w_aspect.aspect_type = some c ∧
      w_aspect.difference ≤ c.default_orb ∧
      (w_aspect.is_exact = 1 ↔ w_aspect.difference ≤ c.tight_orb) ∧
      w_aspect.orb = astro_core_angular_distance w_pos1.longitude
        w_pos2.longitude :=
  calc_aspect_orb_exactness g_aspect_configs w_pos1 w_pos2 w_aspect
    (by decide)
    (by norm_num [astro_aspects_calc_aspect, astro_aspects_check_aspect,
      check_aspect_scan, astro_core_angular_distance, fabs, w_pos1, w_pos2,
      w_aspect, calc_is_exact, get_aspect_config, astro_aspects_is_applying,
      astro_aspects_get_name, AstroAspectType.angle, g_aspect_configs,
      get_aspect_config_scan] <;> decide)

/-- Claim C9: the applying/separating classification of a detected aspect
is stationary exactly when the absolute speed difference is below 0.01
degrees per day; at or above the threshold the result is applying or
separating, and it is applying exactly when, for a positive speed
difference, the current angular distance is below the target angle, the
comparison being flipped for a negative speed difference. -/
theorem is_applying_classification (p1 p2 : AstroPlanetPosition)
    (a : AstroAspect) :
    (astro_aspects_is_applying (some p1) (some p2) (some a) = -1 ↔
      |p1.longitude_speed - p2.longitude_speed| < 1/100) ∧
    (1/100 ≤ |p1.longitude_speed - p2.longitude_speed| →
      (astro_aspects_is_applying (some p1) (some p2) (some a) = 1 ∨
       astro_aspects_is_applying (some p1) (some p2) (some a) = 0)) ∧
    (0 < p1.longitude_speed - p2.longitude_speed →
      1/100 ≤ |p1.longitude_speed - p2.longitude_speed| →
      (astro_aspects_is_applying (some p1) (some p2) (some a) = 1 ↔
        astro_core_angular_distance p1.longitude p2.longitude <
          a.aspect_type.angle)) ∧
    (p1.longitude_speed - p2.longitude_speed < 0 →
      1/100 ≤ |p1.longitude_speed - p2.longitude_speed| →
      (astro_aspects_is_applying (some p1) (some p2) (some a) = 1 ↔
        a.aspect_type.angle <
          astro_core_angular_distance p1.longitude p2.longitude)) := by
  have hbody : astro_aspects_is_applying (some p1) (some p2) (some a) =
      if fabs (p1.longitude_speed - p2.longitude_speed) < 1/100 then (-1 : Int)
      else if p1.longitude_speed - p2.longitude_speed > 0 then
        if astro_core_angular_distance p1.longitude p2.longitude <
          a.aspect_type.angle then 1 else 0
      else
        if astro_core_angular_distance p1.longitude p2.longitude >
          a.aspect_type.angle then 1 else 0 := rfl
  by_cases hth : |p1.longitude_speed - p2.longitude_speed| < 1/100
  · have hthf : fabs (p1.longitude_speed - p2.longitude_speed) < 1/100 := by
      rw [fabs_eq_abs]
      exact hth
    have hval : astro_aspects_is_applying (some p1) (some p2) (some a) = -1 := by
      rw [hbody, if_pos hthf]
    refine ⟨⟨fun _ => hth, fun _ => hval⟩, ?_, ?_, ?_⟩
    · intro hge
      exact absurd hth (not_lt.mpr hge)
    · intro _ hge
      exact absurd hth (not_lt.mpr hge)
    · intro _ hge
      exact absurd hth (not_lt.mpr hge)
  · have hthf : ¬ fabs (p1.longitude_speed - p2.longitude_speed) < 1/100 := by
      rw [fabs_eq_abs]
      exact hth
    have hge : 1/100 ≤ |p1.longitude_speed - p2.longitude_speed| :=
      not_lt.mp hth
    by_cases hpos : p1.longitude_speed - p2.longitude_speed > 0
    · have hval : astro_aspects_is_applying (some p1) (some p2) (some a) =
          if astro_core_angular_distance p1.longitude p2.longitude <
            a.aspect_type.angle then 1 else 0 := by
        rw [hbody, if_neg hthf, if_pos hpos]
      rw [hval]
      refine ⟨?_, ?_, ?_, ?_⟩
      · constructor
        · intro h1
          exfalso
          split_ifs at h1
        · intro h1
          exact absurd h1 hth
      · intro _
        split_ifs
        · exact Or.inl rfl
        · exact Or.inr rfl
      · intro _ _
        split_ifs with hc
        · exact iff_of_true rfl hc
        · exact iff_of_false (by decide) hc
      · intro hneg _
        exact absurd hpos (not_lt.mpr hneg.le)
    · have hneg : p1.longitude_speed - p2.longitude_speed < 0 := by
        rcases lt_trichotomy (p1.longitude_speed - p2.longitude_speed) 0
          with h1 | h1 | h1
        · exact h1
        · exfalso
          rw [h1, abs_zero] at hge
          norm_num at hge
        · exact absurd h1 hpos
      have hval : astro_aspects_is_applying (some p1) (some p2) (some a) =
          if a.aspect_type.angle <
            astro_core_angular_distance p1.longitude p2.longitude
          then 1 else 0 := by
        rw [hbody, if_neg hthf, if_neg hpos]
      rw [hval]
      refine ⟨?_, ?_, ?_, ?_⟩
      · constructor
        · intro h1
          exfalso
          split_ifs at h1
        · intro h1
          exact absurd h1 hth
      · intro _
        split_ifs
        · exact Or.inl rfl
        · exact Or.inr rfl
      · intro hpos2 _
        exact absurd hpos2 hpos
      · intro _ _
        split_ifs with hc
        · exact iff_of_true rfl hc
        · exact iff_of_false (by decide) hc

/-- Witness for C9: a body with speed 1 against a body with speed 0 at
longitudes 0 and 122 with the trine record. -/
theorem is_applying_classification_check :
    (astro_aspects_is_applying (some w_fast) (some w_slow) (some w_aspect) = -1 ↔
      |w_fast.longitude_speed - w_slow.longitude_speed| < 1/100) ∧
    (1/100 ≤ |w_fast.longitude_speed - w_slow.longitude_speed| →
      (astro_aspects_is_applying (some w_fast) (some w_slow) (some w_aspect) = 1 ∨
       astro_aspects_is_applying (some w_fast) (some w_slow) (some w_aspect) = 0)) ∧
    (0 < w_fast.longitude_speed - w_slow.longitude_speed →
      1/100 ≤ |w_fast.longitude_speed - w_slow.longitude_speed| →
      (astro_aspects_is_applying (some w_fast) (some w_slow) (some w_aspect) = 1 ↔
        astro_core_angular_distance w_fast.longitude w_slow.longitude <
          w_aspect.aspect_type.angle)) ∧
    (w_fast.longitude_speed - w_slow.longitude_speed < 0 →
      1/100 ≤ |w_fast.longitude_speed - w_slow.longitude_speed| →
      (astro_aspects_is_applying (some w_fast) (some w_slow) (some w_aspect) = 1 ↔
        w_aspect.aspect_type.angle <
          astro_core_angular_distance w_fast.longitude w_slow.longitude)) :=
  is_applying_classification w_fast w_slow w_aspect

/- The evaluation of calcAllAspects on the grand trine scenario. -/
theorem calc_all_trio_eq :
    (astro_aspects_calc_all g_aspect_configs trio_positions 50).2 =
      trio_aspects := by
  norm_num [trio_positions, trio_positions_s, trio_aspects,
    astro_aspects_calc_all, calc_all_loop, calc_all_row,
    astro_aspects_calc_aspect, astro_aspects_check_aspect, check_aspect_scan,
    astro_core_angular_distance, fabs, g_aspect_configs, AstroAspectType.angle,
    calc_is_exact, get_aspect_config, get_aspect_config_scan,
    astro_aspects_get_name, astro_aspects_is_applying]
  <;> decide

/- Every pattern the grand trine scan emits is a grand trine with exactly
   three stored participants. -/
theorem gt_inner_participants (positions : List AstroPlanetPosition)
    (aspects : List AstroAspect) (ai : AstroAspect) :
    ∀ js, ∀ p ∈ gt_inner positions aspects ai js,
      p.pattern_type = AstroPatternType.grand_trine ∧ p.num_planets = 3 := by
  intro js
  induction js with
  | nil =>
    intro p hp
    simp [gt_inner] at hp
  | cons aj rest ih =>
    intro p hp
    simp only [gt_inner, List.mem_append] at hp
    rcases hp with hp | hp
    · split_ifs at hp with h1 h2 h3
      all_goals simp_all [mk_grand_trine]
    · exact ih p hp

theorem gt_outer_participants (positions : List AstroPlanetPosition)
    (aspects : List AstroAspect) (max_patterns : Nat) :
    ∀ is count, ∀ p ∈ gt_outer positions aspects max_patterns is count,
      p.pattern_type = AstroPatternType.grand_trine ∧ p.num_planets = 3 := by
  intro is
  induction is with
  | nil =>
    intro count p hp
    simp [gt_outer] at hp
  | cons ai rest ih =>
    intro count p hp
    simp only [gt_outer] at hp
    split_ifs at hp with h1 h2
    · rw [List.mem_append] at hp
      rcases hp with hp | hp
      · exact gt_inner_participants positions aspects ai rest p hp
      · exact ih _ p hp
    · simp only [List.nil_append] at hp
      exact ih _ p hp
    · simp at hp

/- Every pattern the T-square scan emits is a T-square with exactly three
   stored participants. -/
theorem ts_inner_participants (positions : List AstroPlanetPosition)
    (aspects : List AstroAspect) (p1 p2 : AstroPlanet) :
    ∀ js, ∀ p ∈ ts_inner positions aspects p1 p2 js,
      p.pattern_type = AstroPatternType.t_square ∧ p.num_planets = 3 := by
  intro js
  induction js with
  | nil =>
    intro p hp
    simp [ts_inner] at hp
  | cons aj rest ih =>
    intro p hp
    simp only [ts_inner, List.mem_append] at hp
    rcases hp with hp | hp
    · split_ifs at hp with h1 h2 h3
      all_goals simp_all [mk_t_square]
    · exact ih p hp

theorem ts_outer_participants (positions : List AstroPlanetPosition)
    (aspects : List AstroAspect) (max_patterns : Nat) :
    ∀ is count, ∀ p ∈ ts_outer positions aspects max_patterns is count,
      p.pattern_type = AstroPatternType.t_square ∧ p.num_planets = 3 := by
  intro is
  induction is with
  | nil =>
    intro count p hp
    simp [ts_outer] at hp
  | cons ai rest ih =>
    intro count p hp
    simp only [ts_outer] at hp
    split_ifs at hp with h1 h2
    · rw [List.mem_append] at hp
      rcases hp with hp | hp
      · exact ts_inner_participants positions aspects ai.planet1 ai.planet2
          aspects p hp
      · exact ih _ p hp
    · simp only [List.nil_append] at hp
      exact ih _ p hp
    · simp at hp

/- Every pattern the stellium scan emits is a stellium with at least
   three stored participants. -/
theorem stellium_scan_participants (positions : List AstroPlanetPosition)
    (max_patterns : Nat) :
    ∀ signs count, ∀ p ∈ stellium_scan positions max_patterns signs count,
      p.pattern_type = AstroPatternType.stellium ∧ 3 ≤ p.num_planets := by
  intro signs
  induction signs with
  | nil =>
    intro count p hp
    simp [stellium_scan] at hp
  | cons sign rest ih =>
    intro count p hp
    simp only [stellium_scan] at hp
    split_ifs at hp with h1 h2
    · rw [List.mem_cons] at hp
      rcases hp with hp | hp
      · rw [hp]
        exact ⟨rfl, h2⟩
      · exact ih _ p hp
    · exact ih _ p hp
    · simp at hp

/-- Claim C1 (witness of the code bug): on the aspect set holding only
the two trine aspects (0,1) and (1,2) the pattern scan already reports a
Grand Trine over 0, 1, 2, although no trine aspect connects bodies 0 and
2 - the third-side check also accepts an edge to the shared body, which
the second of the two aspects itself supplies. -/
theorem grand_trine_without_third_edge :
    ((astro_aspects_find_patterns trio_positions two_trines 10).2.map
      fun p => (p.pattern_type, p.planets)) =
        [(AstroPatternType.grand_trine, [0, 1, 2])] ∧
    (two_trines.map fun a => (a.planet1, a.planet2, a.aspect_type)) =
      [(0, 1, AstroAspectType.trine), (1, 2, AstroAspectType.trine)] := by
  decide

/-- Claim C2 (witness of the code bug): on the aspect set holding an
opposition (0,1) and a single square (0,2) the pattern scan reports a
T-square with apex 2, although body 2 is square to only one end of the
opposition - the second-square check also accepts the square aspect it
started from. -/
theorem t_square_single_square_apex :
    ((astro_aspects_find_patterns trio_positions opp_one_square 10).2.map
      fun p => (p.pattern_type, p.planets)) =
        [(AstroPatternType.t_square, [0, 1, 2])] ∧
    (opp_one_square.map fun a => (a.planet1, a.planet2, a.aspect_type)) =
      [(0, 1, AstroAspectType.opposition), (0, 2, AstroAspectType.square)] := by
  decide

/-- Counterexample to C3: on the scenario input (three bodies at 0, 120,
240 degrees) findPatterns reports three Grand Trine patterns, not exactly
one - the triangle is rediscovered through each pair of its edges. -/
theorem grand_trine_scenario_not_single :
    ((astro_aspects_find_patterns trio_positions
        (astro_aspects_calc_all g_aspect_configs trio_positions 50).2 50).2.filter
      (fun p => p.pattern_type == AstroPatternType.grand_trine)).length = 3 ∧
    ¬ ((astro_aspects_find_patterns trio_positions
        (astro_aspects_calc_all g_aspect_configs trio_positions 50).2 50).2.filter
      (fun p => p.pattern_type == AstroPatternType.grand_trine)).length = 1 := by
  rw [calc_all_trio_eq]
  decide

/-- Claim C3 as amended: for three bodies 0, 1, 2 at longitudes 0, 120,
240 with arbitrary speeds, calcAllAspects yields exactly 3 aspects, each
a Trine over the expected pair, and findPatterns reports exactly three
Grand Trine patterns - the same triangle found through each pair of its
edges - each consisting of exactly the three bodies. -/
theorem grand_trine_scenario_triple_report (s0 s1 s2 : ℚ) :
    (((astro_aspects_calc_all g_aspect_configs (trio_positions_s s0 s1 s2)
          50).2.map fun a => (a.planet1, a.planet2, a.aspect_type)) =
      [((0 : Int), (1 : Int), AstroAspectType.trine), (0, 2, .trine),
       (1, 2, .trine)]) ∧
    (((astro_aspects_find_patterns (trio_positions_s s0 s1 s2)
          (astro_aspects_calc_all g_aspect_configs (trio_positions_s s0 s1 s2)
            50).2 50).2.map fun p => (p.pattern_type, p.planets)) =
      [(AstroPatternType.grand_trine, [0, 1, 2]),
       (AstroPatternType.grand_trine, [0, 1, 2]),
       (AstroPatternType.grand_trine, [0, 2, 1])]) := by
  norm_num [trio_positions_s, astro_aspects_calc_all, calc_all_loop,
    calc_all_row, astro_aspects_calc_aspect, astro_aspects_check_aspect,
    check_aspect_scan, astro_core_angular_distance, fabs, g_aspect_configs,
    AstroAspectType.angle, calc_is_exact, get_aspect_config,
    get_aspect_config_scan, astro_aspects_get_name,
    astro_aspects_find_patterns, gt_outer, gt_inner, gt_third_planet,
    gt_has_third_side, mk_grand_trine, ts_outer, ts_inner, ts_second_square,
    mk_t_square, stellium_scan, stellium_collect, stellium_members,
    mk_stellium, zodiac_signs, position_name, ASTRO_MAX_PLANETS, sign_names,
    astro_core_get_sign_name, default_position]
  <;> simp

/-- Claim C4 (witness of the code bug): with capacity 1 the pattern scan
writes two grand trine patterns and reports num_patterns = 2 - the inner
loop of the grand trine scan never re-checks the capacity, so the second
write lands past the end of the caller buffer. -/
theorem find_patterns_capacity_overrun :
    (astro_aspects_find_patterns trio_positions trine_triangle 1).2.length = 2 ∧
    1 < (astro_aspects_find_patterns trio_positions trine_triangle 1).2.length := by
  decide

/-- Claim C5 (witness of the code bug): seven bodies sharing a sign
produce a stellium pattern whose participant count is 7, exceeding the
six slots of the planets array in the C pattern struct. -/
theorem stellium_overflows_participants :
    ((astro_aspects_find_patterns seven_in_aries [] 10).2.map
      fun p => (p.pattern_type, p.num_planets)) =
        [(AstroPatternType.stellium, 7)] ∧
    ((astro_aspects_find_patterns seven_in_aries [] 10).2.map
      fun p => decide (p.num_planets ≤ 6)) = [false] := by
  decide

end Moongate
